import Mathlib

/-!
Verification of the BLE GATT peripheral logic of this repository
(ble_sensor.py and main.py): connection registry, GATT event dispatch,
switch-write handling, temperature publishing, and the advertising frame.

The Python code is shallowly embedded: the mutable object state becomes an
explicit record, the IRQ callback becomes a pure step function returning the
new state together with a trace of the externally visible BLE-stack and LED
calls, and a Python exception (KeyError from set.remove, IndexError from
indexing an empty bytes object) becomes an error flag on the step result,
with the state left as it was at the raise point.
-/

/-! ## Byte-packing codec (embedding of struct.pack calls) -/

/-- Round the ratio n / d of two naturals (d positive) to the nearest
natural, ties to even. -/
def rneNat (n d : ℕ) : ℕ :=
  let q := n / d
  let r := n % d
  if 2 * r < d then q
  else if d < 2 * r then q + 1
  else if q % 2 = 0 then q else q + 1

/-- Round (na / d) * 2 ^ k to the nearest natural, ties to even, for an
integer exponent k, by scaling numerator or denominator. -/
def rneScaled (na d : ℕ) (k : ℤ) : ℕ :=
  if 0 ≤ k then rneNat (na * 2 ^ k.toNat) d else rneNat na (d * 2 ^ (-k).toNat)

/-- Decide whether d * 2 ^ k ≤ n for an integer exponent k. -/
def le2pow (d n : ℕ) (k : ℤ) : Bool :=
  if 0 ≤ k then d * 2 ^ k.toNat ≤ n else d ≤ n * 2 ^ (-k).toNat

/-- Fuel-driven floor of the base-2 logarithm of a natural number,
written by structural recursion on the fuel so that it reduces in the
kernel. -/
def log2fuel (fuel n : ℕ) : ℕ :=
  match fuel with
  | 0 => 0
  | f + 1 => if 2 ≤ n then log2fuel f (n / 2) + 1 else 0

/-- Floor of the base-2 logarithm of a positive natural number. -/
def natLog2 (n : ℕ) : ℕ := log2fuel n n

/-- Floor of the base-2 logarithm of the positive rational na / d. -/
def floorLog2Q (na d : ℕ) : ℤ :=
  let g : ℤ := (natLog2 na : ℤ) - (natLog2 d : ℤ)
  if le2pow d na (g + 1) then g + 1
  else if ¬ le2pow d na g then g - 1
  else g

/-- IEEE-754 binary32 bit pattern of a rational value, with round-to-nearest,
ties-to-even, clamping overflow to the infinity pattern.  This embeds the
float conversion performed by the MicroPython struct module for format
character f.  All arithmetic works directly on the reduced numerator and
denominator so that the kernel can evaluate it. -/
def f32bits (q : ℚ) : ℕ :=
  if q.num = 0 then 0
  else
    let sgn : ℕ := if q.num < 0 then 2 ^ 31 else 0
    let na : ℕ := q.num.natAbs
    let d : ℕ := q.den
    let e : ℤ := floorLog2Q na d
    if e < -126 then
      sgn + rneScaled na d 149
    else
      let m : ℕ := rneScaled na d (23 - e)
      let bits : ℕ := (e + 126).toNat * 2 ^ 23 + m
      if 0x7F800000 ≤ bits then sgn + 0x7F800000 else sgn + bits

/-- Embedding of pack with format string lt-f: the 4-byte little-endian
IEEE-754 single-precision encoding of a value. -/
def packF32le (q : ℚ) : List ℕ :=
  let b := f32bits q
  [b % 256, b / 2 ^ 8 % 256, b / 2 ^ 16 % 256, b / 2 ^ 24 % 256]

/-- Embedding of pack with format string lt-HB: a little-endian unsigned
16-bit value followed by one byte. -/
def pack_lt_HB (h b : ℕ) : List ℕ := [h % 256, h / 256 % 256, b % 256]

/-- Big-endian 4-byte encoding of an unsigned 32-bit value. -/
def u32be (w : ℕ) : List ℕ := [w / 2 ^ 24 % 256, w / 2 ^ 16 % 256, w / 2 ^ 8 % 256, w % 256]

/-- Embedding of pack with format string gt-BBI6B: two bytes, a big-endian
unsigned 32-bit value, then six bytes. -/
def pack_gt_BBI6B (b1 b2 w : ℕ) (mac : List ℕ) : List ℕ :=
  [b1 % 256, b2 % 256] ++ u32be w ++ mac.map (· % 256)

/-! ## Advertising-frame constants (ble_sensor.py lines 36-51) -/

def _PROTOCOL_VERSION : ℕ := 0x01

def _DEVICE_ID : ℕ := 0x80

def _DEVICE_MAC : List ℕ := [0x12, 0x34, 0x56, 0x78, 0x9A, 0xBC]

def _FEATURE_MASK : ℕ := 0x20040000

/-- The manufacturer-specific advertising frame, ble_sensor.py line 51. -/
def _MANUFACTURER : List ℕ :=
  pack_gt_BBI6B _PROTOCOL_VERSION _DEVICE_ID _FEATURE_MASK _DEVICE_MAC

/-! ## Data model of the peripheral object -/

/-- Characteristic value handles as returned by gatts_register_services in
declaration order (temperature first, switch second); modelled as two
distinct naturals. -/
def _temperature_handle : ℕ := 0

def _switch_handle : ℕ := 1

/-- BLE stack events delivered to the IRQ callback. -/
inductive Event
  | centralConnect (conn : ℕ)
  | centralDisconnect (conn : ℕ)
  | gattsWrite (conn : ℕ) (valueHandle : ℕ)
  deriving DecidableEq

/-- Externally visible calls made by the peripheral code, in program order. -/
inductive Effect
  | gattsRead (vh : ℕ)
  | gattsWrite (vh : ℕ) (value : List ℕ)
  | gattsNotify (conn : ℕ) (vh : ℕ)
  | gattsIndicate (conn : ℕ) (vh : ℕ)
  | ledOn (led : ℕ)
  | ledOff (led : ℕ)
  | advertise
  deriving DecidableEq

/-- Python exceptions that can escape the embedded code. -/
inductive PyError
  | keyError
  | indexError
  deriving DecidableEq

/-- The mutable state of the peripheral object: the connection registry
(a Python set of connection handles), the stack-held storage of the two
characteristics, and the two LEDs. -/
structure BLEState where
  connections : Finset ℕ
  switchStorage : List ℕ
  tempStorage : List ℕ
  ledBleu : Bool
  ledRouge : Bool
  deriving DecidableEq

/-- State right after construction: empty registry, empty storages. -/
def initState : BLEState :=
  { connections := ∅, switchStorage := [], tempStorage := [],
    ledBleu := false, ledRouge := false }

/-- Result of one IRQ callback invocation: the exception that escaped (if
any), the state at return or at the raise point, and the trace of calls
made before returning or raising. -/
structure StepResult where
  err : Option PyError
  state : BLEState
  effects : List Effect
  deriving DecidableEq

/-! ## The event dispatcher (BLESensor._irq, ble_sensor.py lines 77-107) -/

/-- Embedding of BLESensor._irq.  Connect: set.add then blue LED on.
Disconnect: set.remove — raising KeyError when the handle is absent, in
which case the state is unchanged and advertising is NOT re-armed — else
re-advertise (which turns the blue LED off).  Write: guarded on registry
membership and on the switch value handle; on acceptance the stored payload
is read, an acknowledgement pack_lt_HB 1000 byte0 is written back, the
originating connection is notified, and only then the red LED is switched
according to byte0; indexing an empty stored payload raises IndexError
before any write. -/
def _irq (s : BLEState) (e : Event) : StepResult :=
  match e with
  | .centralConnect c =>
      ⟨none, { s with connections := insert c s.connections, ledBleu := true },
       [.ledOn 3]⟩
  | .centralDisconnect c =>
      if c ∈ s.connections then
        ⟨none, { s with connections := s.connections.erase c, ledBleu := false },
         [.advertise, .ledOff 3]⟩
      else
        ⟨some .keyError, s, []⟩
  | .gattsWrite c vh =>
      if c ∈ s.connections ∧ vh = _switch_handle then
        match s.switchStorage with
        | [] => ⟨some .indexError, s, [.gattsRead _switch_handle]⟩
        | b :: _ =>
            ⟨none,
             { s with switchStorage := pack_lt_HB 1000 b, ledRouge := b == 1 },
             [.gattsRead _switch_handle,
              .gattsWrite _switch_handle (pack_lt_HB 1000 b),
              .gattsNotify c _switch_handle]
               ++ (if b == 1 then [.ledOn 1] else [.ledOff 1])⟩
      else ⟨none, s, []⟩

/-! ## Value publishers -/

/-- Per-member fan-out of the publish loops: for each connection handle, a
notify and/or an indicate on the temperature characteristic. -/
def fanOut (conns : List ℕ) (ntf ind : Bool) : List Effect :=
  match conns with
  | [] => []
  | c :: rest =>
      (if ntf then [Effect.gattsNotify c _temperature_handle] else [])
        ++ (if ind then [Effect.gattsIndicate c _temperature_handle] else [])
        ++ fanOut rest ntf ind

/-- Embedding of BLESensor.set_data_temperature (ble_sensor.py lines
110-117): write the little-endian float into the temperature storage
unconditionally, then when the notify flag is set, notify every registry
member.  Registry iteration order is determinised as ascending. -/
def set_data_temperature (s : BLEState) (t : ℚ) (ntf : Bool) :
    BLEState × List Effect :=
  ({ s with tempStorage := packF32le t },
   Effect.gattsWrite _temperature_handle (packF32le t)
     :: (if ntf then fanOut (s.connections.sort (· ≤ ·)) true false else []))

/-- Embedding of BLEenvironment.set_temp (main.py lines 87-94), whose
registry and temperature storage are modelled by the same state record:
write the little-endian float unconditionally, then when notify or indicate
is requested, per member notify and/or indicate.  Registry iteration order
is determinised as ascending. -/
def set_temp (s : BLEState) (t : ℚ) (ntf ind : Bool) :
    BLEState × List Effect :=
  ({ s with tempStorage := packF32le t },
   Effect.gattsWrite _temperature_handle (packF32le t)
     :: (if ntf || ind then fanOut (s.connections.sort (· ≤ ·)) ntf ind else []))

/-! ## The periodic publish loop (main.py demo, lines 121-137) -/

/-- One iteration of the demo loop: the try/except around the sensor read
yields either a temperature or, on failure, the Python value None, in which
case the publish is skipped.  OLED display and print calls are omitted. -/
def demoIter (s : BLEState) (reading : Option ℚ) : BLEState × List Effect :=
  match reading with
  | none => (s, [])
  | some t => set_temp s t true false

/-- Replay of successive demo-loop iterations, concatenating their effect
traces. -/
def demoRun (s : BLEState) (rs : List (Option ℚ)) : BLEState × List Effect :=
  match rs with
  | [] => (s, [])
  | r :: rest =>
      let p := demoIter s r
      let q := demoRun p.1 rest
      (q.1, p.2 ++ q.2)

/-! ## Replay of event/publish sequences -/

/-- An operation delivered to the peripheral: a stack event dispatched to
the IRQ callback, or an application-driven temperature publish. -/
inductive Op
  | ev (e : Event)
  | publish (t : ℚ) (ntf : Bool)
  deriving DecidableEq

/-- State transformer of one operation (the IRQ callback leaves the state
at the raise point unchanged when it raises). -/
def replayOp (s : BLEState) (op : Op) : BLEState :=
  match op with
  | .ev e => (_irq s e).state
  | .publish t n => (set_data_temperature s t n).1

/-- Replay a whole sequence of operations from a starting state. -/
def replay (s : BLEState) (ops : List Op) : BLEState :=
  ops.foldl replayOp s

/-- The specification predicate of claim C1: handle h has a connect event
with no matching later disconnect in the sequence. -/
def connectedSpec (h : ℕ) (ops : List Op) : Prop :=
  ∃ pre post : List Op,
    ops = pre ++ Op.ev (.centralConnect h) :: post
      ∧ Op.ev (.centralDisconnect h) ∉ post

/-- The notify calls of an effect trace. -/
def notifyEffects (l : List Effect) : List Effect :=
  l.filter fun e => match e with
    | .gattsNotify _ _ => true
    | _ => false

/-- The actuator-on calls (red LED on) of an effect trace. -/
def actuatorOnEffects (l : List Effect) : List Effect :=
  l.filter fun e => match e with
    | .ledOn 1 => true
    | _ => false

/-- The actuator-off calls (red LED off) of an effect trace. -/
def actuatorOffEffects (l : List Effect) : List Effect :=
  l.filter fun e => match e with
    | .ledOff 1 => true
    | _ => false

/-! ## Helper lemmas -/

theorem irq_write_connections (s : BLEState) (c vh : ℕ) :
    (_irq s (.gattsWrite c vh)).state.connections = s.connections := by
  rcases hs : s.switchStorage with _ | ⟨b, rest⟩ <;>
    simp only [_irq, hs] <;> split <;> rfl

theorem mem_replayOp (s : BLEState) (op : Op) (h : ℕ) :
    h ∈ (replayOp s op).connections ↔
      op = Op.ev (.centralConnect h)
        ∨ (h ∈ s.connections ∧ op ≠ Op.ev (.centralDisconnect h)) := by
  rcases op with e | ⟨t, n⟩
  · rcases e with c | c | ⟨c, vh⟩
    · simp only [replayOp, _irq, Finset.mem_insert, Op.ev.injEq,
        Event.centralConnect.injEq]
      constructor
      · rintro (rfl | hm)
        · exact Or.inl rfl
        · exact Or.inr ⟨hm, by simp⟩
      · rintro (rfl | ⟨hm, -⟩)
        · exact Or.inl rfl
        · exact Or.inr hm
    · simp only [replayOp, _irq]
      split
      · next hc =>
          simp only [Finset.mem_erase]
          constructor
          · rintro ⟨hne, hm⟩
            refine Or.inr ⟨hm, fun hEq => hne ?_⟩
            injection hEq with h1
            injection h1 with h2
            exact h2.symm
          · rintro (hAbs | ⟨hm, hne⟩)
            · exact absurd hAbs (by simp)
            · refine ⟨fun hch => hne ?_, hm⟩
              rw [hch]
      · next hc =>
          constructor
          · intro hm
            exact Or.inr ⟨hm, by rintro hEq; rw [show c = h by injection hEq with h1; injection h1] at hc; exact hc hm⟩
          · rintro (hAbs | ⟨hm, -⟩)
            · exact absurd hAbs (by simp)
            · exact hm
    · rw [show replayOp s (Op.ev (.gattsWrite c vh)) = (_irq s (.gattsWrite c vh)).state from rfl,
        irq_write_connections]
      simp
  · simp [replayOp, set_data_temperature]

theorem connectedSpec_nil (h : ℕ) : ¬ connectedSpec h [] := by
  rintro ⟨pre, post, heq, -⟩
  exact absurd heq.symm (by simp)

theorem connectedSpec_append (h : ℕ) (ops : List Op) (op : Op) :
    connectedSpec h (ops ++ [op]) ↔
      op = Op.ev (.centralConnect h)
        ∨ (connectedSpec h ops ∧ op ≠ Op.ev (.centralDisconnect h)) := by
  constructor
  · rintro ⟨pre, post, heq, hnot⟩
    rcases List.eq_nil_or_concat post with rfl | ⟨post', lastE, rfl⟩
    · obtain ⟨-, h3⟩ := List.append_inj' heq rfl
      injection h3 with h4 _
      exact Or.inl h4
    · have heq2 : ops ++ [op]
          = (pre ++ Op.ev (.centralConnect h) :: post') ++ [lastE] := by
        rw [heq]; simp
      obtain ⟨h5, h6⟩ := List.append_inj' heq2 rfl
      injection h6 with hop _
      rw [List.concat_eq_append, List.mem_append, List.mem_singleton] at hnot
      push_neg at hnot
      exact Or.inr ⟨⟨pre, post', h5, hnot.1⟩, fun hc => hnot.2 (hc ▸ hop)⟩
  · rintro (rfl | ⟨⟨pre, post, rfl, hnot⟩, hne⟩)
    · exact ⟨ops, [], rfl, by simp⟩
    · refine ⟨pre, post ++ [op], by simp, ?_⟩
      rw [List.mem_append, List.mem_singleton]
      push_neg
      exact ⟨hnot, Ne.symm hne⟩

theorem replay_append (s : BLEState) (ops : List Op) (op : Op) :
    replay s (ops ++ [op]) = replayOp (replay s ops) op := by
  simp [replay, List.foldl_append]

theorem mem_replay_aux (ops : List Op) (h : ℕ) :
    h ∈ (replay initState ops).connections ↔ connectedSpec h ops := by
  induction ops using List.reverseRecOn with
  | nil => simp [replay, initState, connectedSpec_nil h]
  | append_singleton ops op ih =>
      rw [replay_append, mem_replayOp, connectedSpec_append, ih]

theorem mem_fanOut (conns : List ℕ) (c : ℕ) (ind : Bool) (hc : c ∈ conns) :
    Effect.gattsNotify c _temperature_handle ∈ fanOut conns true ind := by
  induction conns with
  | nil => cases hc
  | cons a rest ih =>
      rcases List.mem_cons.mp hc with rfl | hmem
      · cases ind <;> simp [fanOut]
      · have := ih hmem
        cases ind <;> simp [fanOut] at this ⊢ <;> tauto

/-! ## Concrete states used as witnesses and counterexamples -/

/-- A state with a single tracked connection 7 and stored switch byte 1. -/
def sCex : BLEState :=
  { connections := {7}, switchStorage := [1], tempStorage := [],
    ledBleu := true, ledRouge := false }

/-- A state with tracked connections 1 and 2. -/
def s12 : BLEState :=
  { connections := {1, 2}, switchStorage := [], tempStorage := [],
    ledBleu := true, ledRouge := false }

/-- A state with tracked connection 3 and an empty stored switch payload. -/
def sEmpty : BLEState :=
  { connections := {3}, switchStorage := [], tempStorage := [],
    ledBleu := true, ledRouge := false }

/-- A state with tracked connection 9 and stored switch payload 1. -/
def sOn : BLEState :=
  { connections := {9}, switchStorage := [1], tempStorage := [],
    ledBleu := true, ledRouge := false }

/-- A state with tracked connection 4 and stored switch payload 7, 9. -/
def sB0 : BLEState :=
  { connections := {4}, switchStorage := [7, 9], tempStorage := [],
    ledBleu := true, ledRouge := true }

/-! ## Claim theorems -/

/-- C1: after replaying any sequence of connect and disconnect events from
the initial state, with any interleaving of characteristic-write events and
temperature publishes, the registry members are exactly the handles that
have a connect with no later disconnect; and a duplicate connect is
idempotent (connecting a handle twice yields the same state as connecting
it once). -/
theorem registry_replay_correct :
    (∀ (ops : List Op) (h : ℕ),
        h ∈ (replay initState ops).connections ↔ connectedSpec h ops)
      ∧ ∀ (s : BLEState) (h : ℕ),
          replay s [Op.ev (.centralConnect h), Op.ev (.centralConnect h)]
            = replay s [Op.ev (.centralConnect h)] := by
  refine ⟨mem_replay_aux, fun s h => ?_⟩
  simp [replay, replayOp, _irq, Finset.insert_idem]

/-- C2 counterexample: a disconnect for handle 5 on the empty registry does
not re-arm advertising and lets an exception (KeyError) escape the
dispatcher, contradicting the claimed StaleHandle-and-re-advertise
behaviour. -/
theorem disconnect_stale_cex :
    (_irq initState (.centralDisconnect 5)).err = some PyError.keyError
      ∧ Effect.advertise ∉ (_irq initState (.centralDisconnect 5)).effects := by
  decide

/-- C2 (amended): a disconnect whose handle is not in the registry raises
KeyError out of the event-dispatch boundary; the registry is left
unchanged, no advertising re-arm happens and no StaleHandle condition is
reported locally. -/
theorem disconnect_stale_raises (s : BLEState) (c : ℕ)
    (hc : c ∉ s.connections) :
    _irq s (.centralDisconnect c) = ⟨some .keyError, s, []⟩ := by
  simp [_irq, hc]

theorem disconnect_stale_raises_witness :
    _irq initState (.centralDisconnect 5) = ⟨some .keyError, initState, []⟩ :=
  disconnect_stale_raises initState 5 (by decide)

/-- C3: a characteristic write whose connection handle is untracked, or
whose value handle is not the write-capable switch characteristic, is a
strict no-op: unchanged state (no actuator, no storage mutation), no
stack calls (no notify), and no exception. -/
theorem write_rejected_noop (s : BLEState) (c vh : ℕ)
    (hrej : c ∉ s.connections ∨ vh ≠ _switch_handle) :
    _irq s (.gattsWrite c vh) = ⟨none, s, []⟩ := by
  have hng : ¬ (c ∈ s.connections ∧ vh = _switch_handle) := by tauto
  simp [_irq, hng]

theorem write_rejected_noop_witness :
    _irq s12 (.gattsWrite 9 _switch_handle) = ⟨none, s12, []⟩ :=
  write_rejected_noop s12 9 _switch_handle (Or.inl (by decide))

/-- C4: with the registry containing exactly h1 and stored switch byte 1,
the write is accepted with no exception, the actuator-on side effect fires
exactly once (and actuator-off never), the switch storage becomes the
little-endian 16-bit constant 1000 followed by the echoed byte 0x01, and
exactly one notify is issued, addressed to h1. -/
theorem switch_write_on_ack (s : BLEState) (h1 : ℕ) (rest : List ℕ)
    (hc : s.connections = {h1}) (hs : s.switchStorage = 1 :: rest) :
    (_irq s (.gattsWrite h1 _switch_handle)).err = none
      ∧ (_irq s (.gattsWrite h1 _switch_handle)).state.switchStorage
          = [0xE8, 0x03, 0x01]
      ∧ actuatorOnEffects (_irq s (.gattsWrite h1 _switch_handle)).effects
          = [Effect.ledOn 1]
      ∧ actuatorOffEffects (_irq s (.gattsWrite h1 _switch_handle)).effects
          = []
      ∧ notifyEffects (_irq s (.gattsWrite h1 _switch_handle)).effects
          = [Effect.gattsNotify h1 _switch_handle] := by
  have hmem : h1 ∈ s.connections := by
    rw [hc]; exact Finset.mem_singleton_self h1
  simp [_irq, hmem, hs, pack_lt_HB, actuatorOnEffects, actuatorOffEffects,
    notifyEffects]

theorem switch_write_on_ack_witness :
    (_irq sOn (.gattsWrite 9 _switch_handle)).err = none
      ∧ (_irq sOn (.gattsWrite 9 _switch_handle)).state.switchStorage
          = [0xE8, 0x03, 0x01]
      ∧ actuatorOnEffects (_irq sOn (.gattsWrite 9 _switch_handle)).effects
          = [Effect.ledOn 1]
      ∧ actuatorOffEffects (_irq sOn (.gattsWrite 9 _switch_handle)).effects
          = []
      ∧ notifyEffects (_irq sOn (.gattsWrite 9 _switch_handle)).effects
          = [Effect.gattsNotify 9 _switch_handle] :=
  switch_write_on_ack sOn 9 [] (by decide) rfl

/-- C5 counterexample: in a concrete accepted switch write the effect trace
is read, acknowledgement write, notify, and only then the actuator side
effect, so the notify occurs strictly before the side effect, refuting the
claimed side-effect-before-notify order. -/
theorem write_order_cex :
    (_irq sCex (.gattsWrite 7 _switch_handle)).effects
        = [Effect.gattsRead _switch_handle,
           Effect.gattsWrite _switch_handle [0xE8, 0x03, 0x01],
           Effect.gattsNotify 7 _switch_handle, Effect.ledOn 1]
      ∧ [Effect.gattsNotify 7 _switch_handle, Effect.ledOn 1].Sublist
          (_irq sCex (.gattsWrite 7 _switch_handle)).effects
      ∧ ¬ [Effect.ledOn 1, Effect.gattsNotify 7 _switch_handle].Sublist
          (_irq sCex (.gattsWrite 7 _switch_handle)).effects := by
  decide

/-- C5 (amended): for every accepted characteristic write the dispatcher
reads the raw bytes from storage, re-encodes the acknowledgement into the
same storage, notifies the originating connection, and only after the
notify applies the actuator side effect. -/
theorem write_order_amended (s : BLEState) (c b : ℕ) (rest : List ℕ)
    (hc : c ∈ s.connections) (hs : s.switchStorage = b :: rest) :
    (_irq s (.gattsWrite c _switch_handle)).effects
      = [Effect.gattsRead _switch_handle,
         Effect.gattsWrite _switch_handle (pack_lt_HB 1000 b),
         Effect.gattsNotify c _switch_handle]
          ++ (if b == 1 then [Effect.ledOn 1] else [Effect.ledOff 1]) := by
  simp [_irq, hc, hs]

theorem write_order_amended_witness :
    (_irq sCex (.gattsWrite 7 _switch_handle)).effects
      = [Effect.gattsRead _switch_handle,
         Effect.gattsWrite _switch_handle (pack_lt_HB 1000 1),
         Effect.gattsNotify 7 _switch_handle]
          ++ (if 1 == 1 then [Effect.ledOn 1] else [Effect.ledOff 1]) :=
  write_order_amended sCex 7 1 [] (by decide) rfl

/-- C6: the publisher writes the 4-byte little-endian IEEE-754 single
encoding into the temperature storage unconditionally for every value and
flag combination, and when the notify flag is set it issues a notify to
every handle of the registry. -/
theorem publish_stores_and_notifies_all (s : BLEState) (t : ℚ)
    (ntf ind : Bool) :
    (set_temp s t ntf ind).1.tempStorage = packF32le t
      ∧ (ntf = true → ∀ c, c ∈ s.connections →
          Effect.gattsNotify c _temperature_handle ∈ (set_temp s t ntf ind).2) := by
  refine ⟨rfl, ?_⟩
  rintro rfl c hc
  have hcl : c ∈ s.connections.sort (· ≤ ·) := (Finset.mem_sort _).mpr hc
  simp only [set_temp, Bool.true_or, if_true, List.mem_cons]
  exact Or.inr (mem_fanOut _ c ind hcl)

theorem publish_stores_and_notifies_all_witness :
    (set_temp s12 (mkRat 43 2) true false).1.tempStorage
        = packF32le (mkRat 43 2)
      ∧ packF32le (mkRat 43 2) = [0x00, 0x00, 0xAC, 0x41]
      ∧ Effect.gattsNotify 1 _temperature_handle
          ∈ (set_temp s12 (mkRat 43 2) true false).2
      ∧ Effect.gattsNotify 2 _temperature_handle
          ∈ (set_temp s12 (mkRat 43 2) true false).2 :=
  ⟨(publish_stores_and_notifies_all s12 (mkRat 43 2) true false).1,
   by decide,
   (publish_stores_and_notifies_all s12 (mkRat 43 2) true false).2 rfl 1 (by decide),
   (publish_stores_and_notifies_all s12 (mkRat 43 2) true false).2 rfl 2 (by decide)⟩

/-- C7 counterexample: an accepted write whose stored payload is empty is
not a defensive no-op — an IndexError escapes the dispatcher. -/
theorem short_payload_cex :
    (_irq sEmpty (.gattsWrite 3 _switch_handle)).err = some PyError.indexError := by
  decide

/-- C7 (amended): a write whose stored payload is empty (the only payload
shorter than the 1-byte declared switch width) mutates no storage, issues
no acknowledgement write, no notify and no actuator call, but the decode
failure is an IndexError that propagates out of the dispatcher instead of
being handled as a defensive no-op. -/
theorem short_payload_raises (s : BLEState) (c : ℕ)
    (hc : c ∈ s.connections) (hs : s.switchStorage = []) :
    _irq s (.gattsWrite c _switch_handle)
      = ⟨some PyError.indexError, s, [Effect.gattsRead _switch_handle]⟩ := by
  simp [_irq, hc, hs]

theorem short_payload_raises_witness :
    _irq sEmpty (.gattsWrite 3 _switch_handle)
      = ⟨some PyError.indexError, sEmpty, [Effect.gattsRead _switch_handle]⟩ :=
  short_payload_raises sEmpty 3 (by decide) rfl

/-- C8: the manufacturer-specific advertising frame is the big-endian
concatenation of the protocol version byte, the device id byte, the 32-bit
feature mask and the 6-byte MAC, and the feature mask is the sum of the
power-of-two codes 2 ^ 18 (temperature) and 2 ^ 29 (switch), equal to
0x20040000. -/
theorem advertising_frame_layout :
    _MANUFACTURER
        = [_PROTOCOL_VERSION, _DEVICE_ID] ++ u32be (2 ^ 18 + 2 ^ 29) ++ _DEVICE_MAC
      ∧ _FEATURE_MASK = 2 ^ 18 + 2 ^ 29
      ∧ (2 ^ 18 + 2 ^ 29 : ℕ) = 0x20040000 := by
  decide

/-- C9: a demo-loop iteration whose sensor read fails performs no publish at
all — no storage write and no notify — and the loop simply continues: a
run beginning with a failed read equals the run without it. -/
theorem sensor_fail_skips_publish :
    (∀ s : BLEState, demoIter s none = (s, []))
      ∧ ∀ (s : BLEState) (rest : List (Option ℚ)),
          demoRun s (none :: rest) = demoRun s rest := by
  refine ⟨fun s => rfl, fun s rest => ?_⟩
  simp [demoRun, demoIter]

/-- C10: an accepted switch write with a nonempty stored payload depends
only on byte 0: the acknowledgement is the constant 1000 little-endian
followed by byte 0 echoed, the actuator is turned on exactly when byte 0
equals 1 and turned off for every other byte value, and trailing bytes are
ignored (the result does not depend on them). -/
theorem switch_write_depends_on_byte0 (s : BLEState) (c b : ℕ) (rest : List ℕ)
    (hc : c ∈ s.connections) (hb : b < 256) (hs : s.switchStorage = b :: rest) :
    _irq s (.gattsWrite c _switch_handle)
        = ⟨none,
           { s with switchStorage := [0xE8, 0x03, b], ledRouge := b == 1 },
           [Effect.gattsRead _switch_handle,
            Effect.gattsWrite _switch_handle [0xE8, 0x03, b],
            Effect.gattsNotify c _switch_handle]
             ++ (if b == 1 then [Effect.ledOn 1] else [Effect.ledOff 1])⟩
      ∧ ((_irq s (.gattsWrite c _switch_handle)).state.ledRouge = true ↔ b = 1) := by
  have hmod : b % 256 = b := Nat.mod_eq_of_lt hb
  constructor
  · simp [_irq, hc, hs, pack_lt_HB, hmod]
  · simp [_irq, hc, hs]

theorem switch_write_depends_on_byte0_witness :
    (_irq sB0 (.gattsWrite 4 _switch_handle)
        = ⟨none,
           { sB0 with switchStorage := [0xE8, 0x03, 7], ledRouge := (7 == 1) },
           [Effect.gattsRead _switch_handle,
            Effect.gattsWrite _switch_handle [0xE8, 0x03, 7],
            Effect.gattsNotify 4 _switch_handle]
             ++ (if 7 == 1 then [Effect.ledOn 1] else [Effect.ledOff 1])⟩)
      ∧ ((_irq sB0 (.gattsWrite 4 _switch_handle)).state.ledRouge = true ↔ 7 = 1) :=
  switch_write_depends_on_byte0 sB0 4 7 [9] (by decide) (by decide) rfl
